import Mathlib

/-!
Shallow embedding of the food-delivery schema (`src/models.py`): the Django
model declarations, their field validators, the declared foreign-key delete
behaviour, and a small relational-store semantics for the insert, update and
delete operations the schema induces.
-/

namespace FoodDelivery

/-- Row of the `state` table (`State`, models.py 26-39); `name` is the field
read by `Address.get_full_address` through the `state` foreign key. -/
structure StateRow where
  name : String
deriving DecidableEq

/-- Row of the `address` table (`Address`, models.py 42-68), with the joined
`State` row embedded so the formatter can read `self.state.name`. The two
decimal coordinate fields are carried as integers scaled to the declared six
decimal places. -/
structure Address where
  address_line1 : String
  address_line2 : String
  city : String
  state : StateRow
  zip_code : String
  landmark : String
  longitude : Int
  latitude : Int
deriving DecidableEq

/-- `Address.get_full_address` (models.py 57-65): the Python format string
`"%s, %s, %s, %s %s"` applied to address line 1, address line 2, the state
name, the city and the zip code. Note the final separator is a lone space. -/
def get_full_address (a : Address) : String :=
  a.address_line1 ++ ", " ++ a.address_line2 ++ ", " ++ a.state.name ++ ", " ++ a.city ++ " " ++ a.zip_code

/-- Joining a list of strings with the separator `", "` between consecutive
elements; used to state the formatter's separator structure. -/
def commaJoin : List String → String
  | [] => ""
  | [x] => x
  | x :: y :: xs => x ++ ", " ++ commaJoin (y :: xs)

/-- The address of the spec's worked example: line1 "123 Main St",
line2 "Apt 4", state name "California", city "Springfield", zip "90210". -/
def exAddr : Address :=
  { address_line1 := "123 Main St", address_line2 := "Apt 4", city := "Springfield",
    state := { name := "California" }, zip_code := "90210", landmark := "", longitude := 0, latitude := 0 }

/-- The same address with `address_line2` left at its declared default `""`
(models.py 44). -/
def exAddr2 : Address :=
  { address_line1 := "123 Main St", address_line2 := "", city := "Springfield",
    state := { name := "California" }, zip_code := "90210", landmark := "", longitude := 0, latitude := 0 }

/-- Django's `validate_integer` (imported at models.py 5-8): it accepts
exactly the strings matching `^-?\d+\Z`, that is, one or more decimal digits
optionally preceded by a single leading minus sign. -/
def validate_integer (s : String) : Bool :=
  match s.data with
  | [] => false
  | c :: t =>
    if c = '-' then !t.isEmpty && t.all Char.isDigit
    else (c :: t).all Char.isDigit

/-- Validation of `User.mobile` (models.py 86-88): `CharField(max_length=15)`
with validators `MaxLengthValidator(15)` and `validate_integer`. -/
def mobile_valid (s : String) : Bool :=
  decide (s.length ≤ 15) && validate_integer s

/-- The `choices` declared on `Order.status` (models.py 149): the field is a
bare `models.SmallIntegerField()`, so no choices are declared. -/
def ORDER_STATUS_CHOICES : Option (List (Int × String)) := none

/-- `User.USER_TYPE_CHOICES` (models.py 79-83). -/
def USER_TYPE_CHOICES : List (Int × String) :=
  [(1, "Customer"), (2, "Delivery Boy"), (3, "Restaurant Owner")]

/-- `Rating.RATING_TYPES` (models.py 196-203). -/
def RATING_TYPES : List (Int × String) :=
  [(1, "App"), (2, "Order"), (3, "Delivery"), (4, "Delivery Boy"), (5, "Restaurant"), (6, "menu")]

/-- Django's choice check on a field write (`Field.validate`): when a field
declares `choices`, a value outside them fails validation; when no choices
are declared, no enumerated-range check is performed. -/
def validateChoices (choices : Option (List (Int × String))) (v : Int) : Bool :=
  match choices with
  | none => true
  | some cs => cs.any (fun c => c.1 == v)

/-- Choice validation of a write to `Order.status`. -/
def order_status_valid (v : Int) : Bool :=
  validateChoices ORDER_STATUS_CHOICES v

/-- The twelve tables of the schema, named as their `db_table` declarations. -/
inductive Table where
  | state
  | address
  | user
  | restaurant
  | menu
  | bill
  | cart
  | order
  | delivery
  | payment
  | notification
  | rating
deriving DecidableEq

/-- The delete behaviour a foreign key declares: `models.CASCADE` or
`models.DO_NOTHING` are the only two modes used in models.py. -/
inductive OnDelete where
  | cascade
  | doNothing
deriving DecidableEq

/-- A declared foreign key: source table, field name, target table and
`on_delete` mode. -/
structure ForeignKey where
  src : Table
  field : String
  tgt : Table
  onDelete : OnDelete
deriving DecidableEq

/-- Every foreign key declared in models.py with its `on_delete` mode.
`created_by`/`updated_by` come from `AbstractBase` (models.py 16-20,
`DO_NOTHING`) on each concrete subclass; `Rating` drops `created_by`
(models.py 204); `User` extends `AbstractUser`, not `AbstractBase`, so it
carries no audit references. -/
def schemaFKs : List ForeignKey := [
  ⟨Table.state, "created_by", Table.user, OnDelete.doNothing⟩,
  ⟨Table.state, "updated_by", Table.user, OnDelete.doNothing⟩,
  ⟨Table.address, "created_by", Table.user, OnDelete.doNothing⟩,
  ⟨Table.address, "updated_by", Table.user, OnDelete.doNothing⟩,
  ⟨Table.address, "state", Table.state, OnDelete.doNothing⟩,
  ⟨Table.user, "address", Table.address, OnDelete.cascade⟩,
  ⟨Table.restaurant, "created_by", Table.user, OnDelete.doNothing⟩,
  ⟨Table.restaurant, "updated_by", Table.user, OnDelete.doNothing⟩,
  ⟨Table.restaurant, "address", Table.address, OnDelete.cascade⟩,
  ⟨Table.menu, "created_by", Table.user, OnDelete.doNothing⟩,
  ⟨Table.menu, "updated_by", Table.user, OnDelete.doNothing⟩,
  ⟨Table.menu, "restaurant", Table.restaurant, OnDelete.doNothing⟩,
  ⟨Table.bill, "created_by", Table.user, OnDelete.doNothing⟩,
  ⟨Table.bill, "updated_by", Table.user, OnDelete.doNothing⟩,
  ⟨Table.cart, "created_by", Table.user, OnDelete.doNothing⟩,
  ⟨Table.cart, "updated_by", Table.user, OnDelete.doNothing⟩,
  ⟨Table.cart, "menu", Table.menu, OnDelete.doNothing⟩,
  ⟨Table.cart, "user", Table.user, OnDelete.doNothing⟩,
  ⟨Table.cart, "restaurant", Table.restaurant, OnDelete.doNothing⟩,
  ⟨Table.order, "created_by", Table.user, OnDelete.doNothing⟩,
  ⟨Table.order, "updated_by", Table.user, OnDelete.doNothing⟩,
  ⟨Table.order, "user", Table.user, OnDelete.doNothing⟩,
  ⟨Table.order, "bill", Table.bill, OnDelete.doNothing⟩,
  ⟨Table.delivery, "created_by", Table.user, OnDelete.doNothing⟩,
  ⟨Table.delivery, "updated_by", Table.user, OnDelete.doNothing⟩,
  ⟨Table.delivery, "user", Table.user, OnDelete.doNothing⟩,
  ⟨Table.delivery, "delivery_boy", Table.user, OnDelete.doNothing⟩,
  ⟨Table.delivery, "user_address", Table.address, OnDelete.doNothing⟩,
  ⟨Table.delivery, "restaurant", Table.restaurant, OnDelete.doNothing⟩,
  ⟨Table.delivery, "bill", Table.bill, OnDelete.doNothing⟩,
  ⟨Table.payment, "created_by", Table.user, OnDelete.doNothing⟩,
  ⟨Table.payment, "updated_by", Table.user, OnDelete.doNothing⟩,
  ⟨Table.payment, "address", Table.address, OnDelete.doNothing⟩,
  ⟨Table.payment, "order", Table.order, OnDelete.doNothing⟩,
  ⟨Table.notification, "created_by", Table.user, OnDelete.doNothing⟩,
  ⟨Table.notification, "updated_by", Table.user, OnDelete.doNothing⟩,
  ⟨Table.notification, "user", Table.user, OnDelete.doNothing⟩,
  ⟨Table.notification, "order", Table.order, OnDelete.doNothing⟩,
  ⟨Table.rating, "updated_by", Table.user, OnDelete.doNothing⟩,
  ⟨Table.rating, "user", Table.user, OnDelete.doNothing⟩,
  ⟨Table.rating, "menu", Table.menu, OnDelete.doNothing⟩,
  ⟨Table.rating, "restaurant", Table.restaurant, OnDelete.doNothing⟩,
  ⟨Table.rating, "delivery_boy", Table.user, OnDelete.doNothing⟩]

/-- Row of the `address` table restricted to its delete-relevant field:
the `state` foreign key (models.py 46, `DO_NOTHING`). -/
structure AddressRow where
  state : Nat
deriving DecidableEq

/-- Row of the `user` table restricted to its delete-relevant field:
the `address` foreign key (models.py 94, `CASCADE`). -/
structure UserRow where
  address : Nat
deriving DecidableEq

/-- Row of the `restaurant` table restricted to its delete-relevant field:
the `address` foreign key (models.py 107, `CASCADE`). -/
structure RestaurantRow where
  address : Nat
deriving DecidableEq

/-- A store over the State/Address/User/Restaurant fragment of the schema:
each table is a list of (primary key, row) pairs. -/
structure DB where
  states : List (Nat × StateRow)
  addresses : List (Nat × AddressRow)
  users : List (Nat × UserRow)
  restaurants : List (Nat × RestaurantRow)
deriving DecidableEq

/-- Deleting a `State` row: `Address.state` is `on_delete=DO_NOTHING`, so
the delete touches no address row and a referential-integrity-enforcing
backend rejects it with `IntegrityError` while any address still references
the state; otherwise the state row is removed. -/
def deleteState (db : DB) (sid : Nat) : Except String DB :=
  if db.addresses.any (fun p => p.2.state == sid) then
    Except.error "IntegrityError"
  else
    Except.ok { db with states := db.states.filter (fun p => p.1 != sid) }

/-- Deleting an `Address` row: the delete collector follows the two
`on_delete=CASCADE` references to `Address` (`User.address`,
`Restaurant.address`) and removes the referencing rows with it. -/
def deleteAddress (db : DB) (aid : Nat) : DB :=
  { db with
    addresses := db.addresses.filter (fun p => p.1 != aid),
    users := db.users.filter (fun p => p.2.address != aid),
    restaurants := db.restaurants.filter (fun p => p.2.address != aid) }

/-- A store with one state, one address in that state, one user and one
restaurant both at that address. -/
def dbEx : DB :=
  { states := [(0, ⟨"California"⟩)],
    addresses := [(1, ⟨0⟩)],
    users := [(2, ⟨1⟩)],
    restaurants := [(3, ⟨1⟩)] }

/-- A store with two states, of which only state 0 is referenced by an
address. -/
def dbTwoStates : DB :=
  { states := [(0, ⟨"California"⟩), (5, ⟨"Nevada"⟩)],
    addresses := [(1, ⟨0⟩)],
    users := [],
    restaurants := [] }

/-- `dbTwoStates` after state 5 is removed. -/
def dbTwoStatesAfter : DB :=
  { states := [(0, ⟨"California"⟩)],
    addresses := [(1, ⟨0⟩)],
    users := [],
    restaurants := [] }

/-- A table of rows keyed by primary key: every entity declares
`id = models.UUIDField(primary_key=True, default=uuid.uuid4, editable=False)`
(models.py 14 for `AbstractBase`, 84 for `User`); identifiers are abstracted
as naturals. -/
structure TableT (ρ : Type) where
  rows : List (Nat × ρ)
deriving DecidableEq

/-- Primary-key uniqueness across a table. -/
def idsUnique {ρ : Type} (t : TableT ρ) : Prop :=
  (t.rows.map Prod.fst).Nodup

/-- Row insertion: the primary-key constraint rejects an id already
present. -/
def insertRow {ρ : Type} (t : TableT ρ) (id : Nat) (r : ρ) : Except String (TableT ρ) :=
  if t.rows.any (fun p => p.1 == id) then Except.error "duplicate primary key"
  else Except.ok ⟨(id, r) :: t.rows⟩

/-- A field update on the row with primary key `id`: an UPDATE of the
non-key columns; `id` is `editable=False` and only locates the row. -/
def updateRow {ρ : Type} (t : TableT ρ) (id : Nat) (f : ρ → ρ) : TableT ρ :=
  ⟨t.rows.map (fun p => if p.1 == id then (p.1, f p.2) else p)⟩

/-- A sequence of field updates `(id, new fields)`, applied in order. -/
def applyUpdates {ρ : Type} (t : TableT ρ) (us : List (Nat × (ρ → ρ))) : TableT ρ :=
  us.foldl (fun acc u => updateRow acc u.1 u.2) t

/-- Audit timestamps of `AbstractBase` (models.py 15 and 18): `created_at`
has `auto_now_add=True` (stamped with the clock at insert and never part of
a later update) and `updated_at` has `auto_now=True` (restamped on every
save). Other fields of the row sit in `fields`. -/
structure AuditRow (ρ : Type) where
  created_at : Nat
  updated_at : Nat
  fields : ρ
deriving DecidableEq

/-- First save of a row at clock `now`: `auto_now_add` and `auto_now` both
stamp `now`. -/
def saveNew {ρ : Type} (now : Nat) (r : ρ) : AuditRow ρ :=
  ⟨now, now, r⟩

/-- A later save at clock `now` applying the field update `f`: `auto_now`
restamps `updated_at`; `created_at` is not in the update set. -/
def saveUpdate {ρ : Type} (now : Nat) (row : AuditRow ρ) (f : ρ → ρ) : AuditRow ρ :=
  { row with updated_at := now, fields := f row.fields }

/-- A sequence of later saves `(clock, field update)`, applied in order. -/
def applySaves {ρ : Type} (row : AuditRow ρ) (us : List (Nat × (ρ → ρ))) : AuditRow ρ :=
  us.foldl (fun acc u => saveUpdate u.1 acc u.2) row

/-- Whether a table's model extends `AbstractBase` and so carries the audit
columns; `user` extends Django's `AbstractUser` instead (models.py 72). -/
def auditBased : Table → Bool
  | Table.user => false
  | _ => true

/-- The declared columns of each table, transcribed from models.py (the
`user` columns include those inherited from `AbstractUser`). `Rating` sets
`created_by = None` (models.py 204), removing that inherited audit column
from the model. -/
def entityFields : Table → List String
  | Table.state => ["id", "created_at", "created_by", "updated_at", "updated_by",
      "name", "alias", "description"]
  | Table.address => ["id", "created_at", "created_by", "updated_at", "updated_by",
      "address_line1", "address_line2", "city", "state", "zip_code", "landmark",
      "longitude", "latitude"]
  | Table.user => ["id", "password", "last_login", "is_superuser", "username",
      "first_name", "last_name", "email", "is_staff", "is_active", "date_joined",
      "user_type", "mobile", "date_of_birth", "gender", "city", "address"]
  | Table.restaurant => ["id", "created_at", "created_by", "updated_at", "updated_by",
      "name", "website", "description", "city", "address"]
  | Table.menu => ["id", "created_at", "created_by", "updated_at", "updated_by",
      "name", "type", "meal_type", "description", "media", "banner", "price", "restaurant"]
  | Table.bill => ["id", "created_at", "created_by", "updated_at", "updated_by",
      "total_cost", "coupon_code", "tax", "discount"]
  | Table.cart => ["id", "created_at", "created_by", "updated_at", "updated_by",
      "menu", "user", "restaurant"]
  | Table.order => ["id", "created_at", "created_by", "updated_at", "updated_by",
      "user", "bill", "status"]
  | Table.delivery => ["id", "created_at", "created_by", "updated_at", "updated_by",
      "user", "delivery_boy", "user_address", "restaurant", "bill"]
  | Table.payment => ["id", "created_at", "created_by", "updated_at", "updated_by",
      "name", "amount", "address", "order", "payment_status"]
  | Table.notification => ["id", "created_at", "created_by", "updated_at", "updated_by",
      "type", "user", "order", "message", "is_read"]
  | Table.rating => ["id", "created_at", "updated_at", "updated_by",
      "rating", "user", "type", "menu", "restaurant", "delivery_boy"]

/-- Row of the `notification` table (models.py 177-185). -/
structure NotificationRow where
  type : Int
  user : Nat
  order : Nat
  message : String
  is_read : Bool
deriving DecidableEq

/-- Creating a `Notification`: each argument mirrors a declared field;
`is_read` carries `default=False` (models.py 182), applied when the flag is
not supplied at creation. -/
def mkNotification (type : Int) (user : Nat) (order : Nat) (message : String)
    (is_read : Option Bool) : NotificationRow :=
  ⟨type, user, order, message, is_read.getD false⟩

/-- C1 counterexample: on the spec's own example the formatter separates
city and zip code with a space, not a comma, so the claimed output string is
not produced. -/
theorem c1_counterexample :
    get_full_address exAddr = "123 Main St, Apt 4, California, Springfield 90210" ∧
    get_full_address exAddr ≠ "123 Main St, Apt 4, California, Springfield, 90210" := by
  exact ⟨by decide, by decide⟩

/-- C1 (amended): `get_full_address` joins address line 1, address line 2,
the state name and the city with `", "` separators, then appends the zip
code after a single space (no comma before the zip); on the spec's example
input it returns "123 Main St, Apt 4, California, Springfield 90210". -/
theorem c1_full_address_format :
    (∀ a : Address,
      get_full_address a =
        commaJoin [a.address_line1, a.address_line2, a.state.name, a.city] ++ " " ++ a.zip_code) ∧
    get_full_address exAddr = "123 Main St, Apt 4, California, Springfield 90210" := by
  refine ⟨fun a => ?_, by decide⟩
  simp [get_full_address, commaJoin, String.append_assoc]

/-- C10: with `address_line2` at its default empty string the slot is still
emitted, so the output is line1, then `", , "`, then the state name, a
comma, the city, a space and the zip code; and the output depends only on
the five fields the method reads. -/
theorem c10_empty_line2_and_deterministic :
    (∀ a : Address, a.address_line2 = "" →
      get_full_address a =
        a.address_line1 ++ ", , " ++ a.state.name ++ ", " ++ a.city ++ " " ++ a.zip_code) ∧
    (∀ a b : Address,
      a.address_line1 = b.address_line1 → a.address_line2 = b.address_line2 →
      a.state.name = b.state.name → a.city = b.city → a.zip_code = b.zip_code →
      get_full_address a = get_full_address b) := by
  constructor
  · intro a h
    simp [get_full_address, h, String.append_assoc]
  · intro a b h1 h2 h3 h4 h5
    simp [get_full_address, h1, h2, h3, h4, h5]

/-- C10 witness: the formatter applied to the example address whose second
line is the default empty string. -/
theorem c10_witness :
    get_full_address exAddr2 =
      "123 Main St" ++ ", , " ++ "California" ++ ", " ++ "Springfield" ++ " " ++ "90210" :=
  c10_empty_line2_and_deterministic.1 exAddr2 rfl

/-- C3 counterexample: `Order.status` declares no choices, so a value such
as 999 — outside any enumerated status range — passes validation instead of
being rejected. -/
theorem c3_counterexample :
    ORDER_STATUS_CHOICES = none ∧ order_status_valid 999 = true :=
  ⟨rfl, rfl⟩

/-- C3 (amended): `Order.status` declares no choices, so choice validation
accepts every value; by contrast a field with declared choices, such as
`User.user_type`, rejects an out-of-range value like 4. -/
theorem c3_order_status_unconstrained :
    (∀ v : Int, order_status_valid v = true) ∧
    validateChoices (some USER_TYPE_CHOICES) 4 = false :=
  ⟨fun _ => rfl, by decide⟩

/-- C5: deleting a `State` still referenced by an `Address` is rejected with
a referential-integrity error: no new store is produced, so the state row
and the referencing address rows are unchanged. -/
theorem c5_state_delete_rejected (db : DB) (sid : Nat)
    (h : ∃ a ∈ db.addresses, a.2.state = sid) :
    deleteState db sid = Except.error "IntegrityError" := by
  rcases h with ⟨a, ha, hs⟩
  have hany : db.addresses.any (fun p => p.2.state == sid) = true :=
    List.any_eq_true.mpr ⟨a, ha, by simp [hs]⟩
  simp [deleteState, hany]

/-- C5 witness: in `dbEx`, address 1 references state 0, so deleting state 0
is rejected. -/
theorem c5_witness : deleteState dbEx 0 = Except.error "IntegrityError" :=
  c5_state_delete_rejected dbEx 0 ⟨(1, ⟨0⟩), by decide, rfl⟩

/-- C8: `Rating` lacks the `created_by` audit column while every other
table whose model extends `AbstractBase` retains it. -/
theorem c8_rating_no_created_by :
    "created_by" ∉ entityFields Table.rating ∧
    ∀ t : Table, auditBased t = true → t ≠ Table.rating → "created_by" ∈ entityFields t := by
  refine ⟨by decide, ?_⟩
  intro t ht hne
  cases t <;> first
    | exact absurd rfl hne
    | exact absurd ht (by decide)
    | decide

/-- C8 witness: the `order` table is audit-based and keeps `created_by`. -/
theorem c8_witness : "created_by" ∈ entityFields Table.order :=
  c8_rating_no_created_by.2 Table.order rfl (by decide)

/-- C9: a `Notification` created without supplying the read flag has
`is_read = false`. -/
theorem c9_notification_default_unread :
    ∀ (ty : Int) (u o : Nat) (msg : String),
      (mkNotification ty u o msg none).is_read = false :=
  fun _ _ _ _ => rfl

/-- A single field update never touches the id column of any row. -/
theorem updateRow_map_fst {ρ : Type} (t : TableT ρ) (id : Nat) (f : ρ → ρ) :
    (updateRow t id f).rows.map Prod.fst = t.rows.map Prod.fst := by
  have hfst : (Prod.fst ∘ fun p : Nat × ρ => if p.1 == id then (p.1, f p.2) else p) = Prod.fst := by
    funext p
    by_cases h : p.1 = id <;> simp [h]
  rw [updateRow, List.map_map, hfst]

/-- A sequence of field updates never touches the id column of any row. -/
theorem applyUpdates_map_fst {ρ : Type} (us : List (Nat × (ρ → ρ))) (t : TableT ρ) :
    (applyUpdates t us).rows.map Prod.fst = t.rows.map Prod.fst := by
  induction us generalizing t with
  | nil => rfl
  | cons u us ih =>
    rw [show applyUpdates t (u :: us) = applyUpdates (updateRow t u.1 u.2) us from rfl,
      ih (updateRow t u.1 u.2), updateRow_map_fst]

/-- No sequence of later saves changes the creation stamp. -/
theorem applySaves_created_at {ρ : Type} (us : List (Nat × (ρ → ρ))) (row : AuditRow ρ) :
    (applySaves row us).created_at = row.created_at := by
  induction us generalizing row with
  | nil => rfl
  | cons u us ih => exact ih (saveUpdate u.1 row u.2)

/-- After a sequence of later saves the update stamp is the clock of the
last save, or the row's current update stamp when the sequence is empty. -/
theorem applySaves_updated_at {ρ : Type} (us : List (Nat × (ρ → ρ))) (row : AuditRow ρ) :
    (applySaves row us).updated_at = (us.map Prod.fst).getLastD row.updated_at := by
  induction us generalizing row with
  | nil => rfl
  | cons u us ih =>
    rw [show applySaves row (u :: us) = applySaves (saveUpdate u.1 row u.2) us from rfl,
      ih (saveUpdate u.1 row u.2), List.map_cons, List.getLastD_cons]
    rfl

/-- C2 counterexample: `Restaurant.address` is a second `CASCADE` foreign
key, and deleting the address of `dbEx` does remove the referencing
restaurant row, so User→Address is not the only cascading reference. -/
theorem c2_counterexample :
    (⟨Table.restaurant, "address", Table.address, OnDelete.cascade⟩ : ForeignKey) ∈ schemaFKs ∧
    (3, (⟨1⟩ : RestaurantRow)) ∈ dbEx.restaurants ∧
    (deleteAddress dbEx 1).restaurants = [] :=
  ⟨by decide, by decide, by decide⟩

/-- C2 (amended): deleting an `Address` removes exactly the `User` rows and
the `Restaurant` rows referencing it; `User.address` and
`Restaurant.address` are exactly the cascading foreign keys of the schema;
and a non-cascading reference never loses rows: a successful `State` delete
leaves the address, user and restaurant tables unchanged. -/
theorem c2_cascade_exactly_user_and_restaurant :
    (∀ (db : DB) (aid : Nat) (u : Nat × UserRow),
      u ∈ (deleteAddress db aid).users ↔ u ∈ db.users ∧ u.2.address ≠ aid) ∧
    (∀ (db : DB) (aid : Nat) (r : Nat × RestaurantRow),
      r ∈ (deleteAddress db aid).restaurants ↔ r ∈ db.restaurants ∧ r.2.address ≠ aid) ∧
    (∀ fk ∈ schemaFKs, fk.onDelete = OnDelete.cascade ↔
      (fk.src = Table.user ∧ fk.tgt = Table.address) ∨
      (fk.src = Table.restaurant ∧ fk.tgt = Table.address)) ∧
    (∀ (db db' : DB) (sid : Nat), deleteState db sid = Except.ok db' →
      db'.addresses = db.addresses ∧ db'.users = db.users ∧ db'.restaurants = db.restaurants) := by
  refine ⟨?_, ?_, ?_, ?_⟩
  · intro db aid u
    simp [deleteAddress, List.mem_filter]
  · intro db aid r
    simp [deleteAddress, List.mem_filter]
  · decide
  · intro db db' sid h
    by_cases hany : db.addresses.any (fun p => p.2.state == sid) = true
    · simp [deleteState, hany] at h
    · unfold deleteState at h
      rw [if_neg hany] at h
      injection h with h
      subst h
      exact ⟨rfl, rfl, rfl⟩

/-- C2 witness: deleting the unreferenced state 5 of `dbTwoStates` succeeds
and leaves the address, user and restaurant tables unchanged. -/
theorem c2_witness :
    dbTwoStatesAfter.addresses = dbTwoStates.addresses ∧
    dbTwoStatesAfter.users = dbTwoStates.users ∧
    dbTwoStatesAfter.restaurants = dbTwoStates.restaurants :=
  c2_cascade_exactly_user_and_restaurant.2.2.2 dbTwoStates dbTwoStatesAfter 5 rfl

/-- C4 counterexample: the string "-1234" is at most 15 characters yet
contains the non-digit character given by the minus sign, and mobile
validation still accepts it, so acceptance is not equivalent to
"all characters are decimal digits". -/
theorem c4_counterexample :
    ¬ (mobile_valid "-1234" = true ↔
        ("-1234".length ≤ 15 ∧ ∀ c ∈ "-1234".data, c.isDigit)) := by
  decide

/-- C4 (amended): mobile validation succeeds exactly on strings of at most
15 characters consisting of one or more decimal digits optionally preceded
by a single leading minus sign. -/
theorem c4_mobile_validation (s : String) :
    mobile_valid s = true ↔
      (s.length ≤ 15 ∧
        ((s.data ≠ [] ∧ ∀ c ∈ s.data, c.isDigit) ∨
          (∃ t, s.data = '-' :: t ∧ t ≠ [] ∧ ∀ c ∈ t, c.isDigit))) := by
  unfold mobile_valid validate_integer
  cases hdata : s.data with
  | nil => simp [hdata]
  | cons c t =>
    by_cases hc : c = '-'
    · subst hc
      have hdash : ('-').isDigit = false := rfl
      simp [List.all_eq_true, hdash, List.isEmpty_iff, List.isEmpty_eq_false]
    · simp [hc, List.all_eq_true]

/-- C6: the primary key is unique across rows — inserting a duplicate id is
rejected by the primary-key constraint, a successful insertion preserves
uniqueness — and no sequence of field updates changes any row's id. -/
theorem c6_id_unique_and_immutable :
    (∀ (ρ : Type) (t : TableT ρ) (id : Nat) (r : ρ),
      (∃ p ∈ t.rows, p.1 = id) → insertRow t id r = Except.error "duplicate primary key") ∧
    (∀ (ρ : Type) (t : TableT ρ) (id : Nat) (r : ρ) (t' : TableT ρ),
      idsUnique t → insertRow t id r = Except.ok t' → idsUnique t') ∧
    (∀ (ρ : Type) (t : TableT ρ) (us : List (Nat × (ρ → ρ))),
      (applyUpdates t us).rows.map Prod.fst = t.rows.map Prod.fst) := by
  refine ⟨?_, ?_, ?_⟩
  · intro ρ t id r h
    rcases h with ⟨p, hp, he⟩
    have hany : t.rows.any (fun p => p.1 == id) = true :=
      List.any_eq_true.mpr ⟨p, hp, by simp [he]⟩
    simp [insertRow, hany]
  · intro ρ t id r t' hu hok
    by_cases hany : t.rows.any (fun p => p.1 == id) = true
    · simp [insertRow, hany] at hok
    · unfold insertRow at hok
      rw [if_neg hany] at hok
      injection hok with hok
      subst hok
      have hid : id ∉ t.rows.map Prod.fst := by
        intro hmem
        rcases List.mem_map.mp hmem with ⟨p, hp, hfst⟩
        exact hany (List.any_eq_true.mpr ⟨p, hp, by simp [hfst]⟩)
      unfold idsUnique at hu ⊢
      rw [List.map_cons]
      exact List.nodup_cons.mpr ⟨hid, hu⟩
  · intro ρ t us
    exact applyUpdates_map_fst us t

/-- C6 witness: inserting id 4 into a table already holding id 4 is
rejected, and inserting the fresh id 5 keeps the ids unique. -/
theorem c6_witness :
    insertRow (TableT.mk [(4, 10)] : TableT Nat) 4 11 = Except.error "duplicate primary key" ∧
    idsUnique (TableT.mk [(5, 11), (4, 10)] : TableT Nat) :=
  ⟨c6_id_unique_and_immutable.1 Nat ⟨[(4, 10)]⟩ 4 11 ⟨(4, 10), by decide, rfl⟩,
   c6_id_unique_and_immutable.2.1 Nat ⟨[(4, 10)]⟩ 5 11 ⟨[(5, 11), (4, 10)]⟩
     (by unfold idsUnique; decide) rfl⟩

/-- C7: for a row first saved at clock `n0`, any sequence of later saves
leaves `created_at` at `n0`, while `updated_at` becomes the clock of the
last save (or stays `n0` when there is none). -/
theorem c7_created_at_immutable :
    ∀ (ρ : Type) (n0 : Nat) (r : ρ) (us : List (Nat × (ρ → ρ))),
      (applySaves (saveNew n0 r) us).created_at = n0 ∧
      (applySaves (saveNew n0 r) us).updated_at = (us.map Prod.fst).getLastD n0 :=
  fun _ n0 r us =>
    ⟨applySaves_created_at us (saveNew n0 r), applySaves_updated_at us (saveNew n0 r)⟩

end FoodDelivery
